import Mathlib

/-!
Verification development for the PLTU steam-power-plant simulator.

The physics engine lives in the calculation module (utils/calculation.ts):
smoothApproach, calculateBoilerResponse, calculateTurbineResponse,
calculateWaterSystemResponse, the derived-indicator functions,
calculateSystemState and calculateEarnings.  The zustand store
(store/simulatorStore.ts) contributes resetSystem and shutdownSystem.

JavaScript numbers are modelled as real numbers.  The JS defaulting idiom
x || d (fall back to d when x is falsy, i.e. when the number is 0) is
modelled by orD.  calculateOilTankLevel reads the wall clock Date.now();
the embedding makes that an explicit argument now.  The engine returns a
Partial object: the shutdown branch carries only trip, shutdownTime and
the five primary fields, while the normal branch carries trip, the five
primary fields and the derived indicators but no shutdownTime; the
StepOut type below reflects this with Option fields.  At the single call
site of calculateFeedwaterTemp the params record has no mainSteamTemp
field, so in JS that indicator evaluates to NaN; it is modelled as none.
-/

set_option linter.unusedVariables false

noncomputable section

/-- Steam power plant specific constants (calculation.ts, top of file). -/
def BOILER_EFFICIENCY_BASE : ℝ := 0.85

def TURBINE_EFFICIENCY_BASE : ℝ := 0.88

def GENERATOR_EFFICIENCY : ℝ := 0.98

def CONDENSER_PRESSURE_BASE : ℝ := 5.0

def STEAM_TEMP_BASE : ℝ := 540

def STEAM_PRESSURE_BASE : ℝ := 16.5

def COAL_CALORIFIC_VALUE : ℝ := 25000

namespace SMOOTH_FACTORS

/-- SMOOTH_FACTORS.steamTurbine (calculation.ts). -/
def steamTurbine : ℝ := 0.04

/-- SMOOTH_FACTORS.steamFlow (calculation.ts). -/
def steamFlow : ℝ := 0.05

/-- SMOOTH_FACTORS.temperature (calculation.ts). -/
def temperature : ℝ := 0.04

/-- SMOOTH_FACTORS.rpm (calculation.ts). -/
def rpm : ℝ := 0.03

/-- SMOOTH_FACTORS.pressure (calculation.ts). -/
def pressure : ℝ := 0.05

end SMOOTH_FACTORS

/-- Model of the JavaScript defaulting idiom x || d on numbers: the
fallback d is used exactly when x is the falsy number 0. -/
def orD (x d : ℝ) : ℝ := if x = 0 then d else x

/-- One lever vector: Record of the twelve lever channels (types/index.ts
LeverType), each a number. -/
structure Levers where
  coal_feed : ℝ
  feedwater : ℝ
  boiler_pressure : ℝ
  steam_turbine : ℝ
  condenser : ℝ
  cooling_water : ℝ
  air_supply : ℝ
  fuel_injection : ℝ
  steam_flow : ℝ
  water_level : ℝ
  exhaust_gas : ℝ
  emergency_valve : ℝ

attribute [ext] Levers

/-- The fields of the previous SystemState that calculateSystemState and
its three stage functions actually read. -/
structure PrevState where
  mainSteamFlow : ℝ
  mainSteamPressure : ℝ
  mainSteamTemp : ℝ
  turbineSpeed : ℝ
  load : ℝ
  trip : Bool
  shutdownTime : ℝ

attribute [ext] PrevState

/-- CalculationParams (calculation.ts): the twelve lever readings, named
as in the source.  The optional calculated properties of the TS interface
are passed explicitly to the few functions that receive them. -/
structure CalculationParams where
  coalFeed : ℝ
  feedwater : ℝ
  boilerPressure : ℝ
  steamTurbine : ℝ
  condenser : ℝ
  coolingWater : ℝ
  airSupply : ℝ
  fuelInjection : ℝ
  steamFlow : ℝ
  waterLevel : ℝ
  exhaustGas : ℝ
  emergencyValve : ℝ

/-- Construction of params from leverValues (calculateSystemState,
lines 654-667). -/
def paramsOfLevers (l : Levers) : CalculationParams :=
  ⟨l.coal_feed, l.feedwater, l.boiler_pressure, l.steam_turbine,
   l.condenser, l.cooling_water, l.air_supply, l.fuel_injection,
   l.steam_flow, l.water_level, l.exhaust_gas, l.emergency_valve⟩

/-- smoothApproach(current, target, smoothFactor, dt) =
current + (target - current) * (1 - exp(-smoothFactor * dt))
(calculation.ts lines 83-85; identical copy in simulatorStore.ts). -/
def smoothApproach (current target smoothFactor dt : ℝ) : ℝ :=
  current + (target - current) * (1 - Real.exp (-(smoothFactor * dt)))

/-- calculateBoilerEfficiency (variant 1): air-fuel deviation from the
stoichiometric optimum 15.5, water-level and feed-rate factors. -/
def calculateBoilerEfficiency (params : CalculationParams) : ℝ :=
  let airFuelRat := params.airSupply / max params.coalFeed 1
  let optimalRat : ℝ := 15.5
  let ratioEfficiency := max 0.7 (1 - |airFuelRat - optimalRat| / optimalRat)
  let levelEfficiency := min 1 (params.waterLevel / 50)
  let feedEfficiency := min 1 (params.coalFeed / 80)
  BOILER_EFFICIENCY_BASE * ratioEfficiency * levelEfficiency * feedEfficiency

/-- calculateSteamGeneration: coal heat input times combustion efficiency
over the latent heat 2257. -/
def calculateSteamGeneration (params : CalculationParams) : ℝ :=
  let coalEnergy := params.coalFeed * COAL_CALORIFIC_VALUE
  let combustionEfficiency := calculateBoilerEfficiency params
  let heatToSteam := coalEnergy * combustionEfficiency
  heatToSteam / 2257

/-- calculateFrequency(load, baseLoad = 600) = 50 + (load/baseLoad - 1)*0.5
(calculation.ts lines 146-151). -/
def calculateFrequency (load baseLoad : ℝ) : ℝ :=
  let loadRat := load / baseLoad
  let frequencyDeviation := (loadRat - 1) * 0.5
  50 + frequencyDeviation

/-- calculateFrequencyFromLoad(load) = calculateFrequency(load) with the
default baseLoad 600 (calculation.ts lines 253-255). -/
def calculateFrequencyFromLoad (load : ℝ) : ℝ :=
  calculateFrequency load 600

/-- calculateOilTankLevel: 80 plus a Date.now()-driven sinusoidal
variation, clamped to 60..95; now is the explicit wall clock. -/
def calculateOilTankLevel (now : ℝ) : ℝ :=
  let baseLevel : ℝ := 80
  let variation := Real.sin (now / 10000) * 5
  max 60 (min 95 (baseLevel + variation))

/-- calculateSteamOutTurbineTemp: temperature drop through the turbine,
floored at 40. -/
def calculateSteamOutTurbineTemp (mainSteamTemp turbineSpeed : ℝ) : ℝ :=
  let tempDrop := turbineSpeed / 3000 * 200
  max 40 (mainSteamTemp - tempDrop)

/-- calculateSurgeTankTemp: slightly below main steam, floored at 200. -/
def calculateSurgeTankTemp (mainSteamTemp steamFlow : ℝ) : ℝ :=
  let tempDrop := steamFlow / 100 * 20
  max 200 (mainSteamTemp - tempDrop)

/-- calculateCondenserOutTemp: 40 minus the cooling-water effect, floored
at 20. -/
def calculateCondenserOutTemp (params : CalculationParams) : ℝ :=
  let baseTemp : ℝ := 40
  let coolingEffect := params.coolingWater / 100 * 20
  max 20 (baseTemp - coolingEffect)

/-- calculateCoolingWaterTemp: condenser outlet plus 5, floored at 25. -/
def calculateCoolingWaterTemp (condenserOutTemp : ℝ) : ℝ :=
  max 25 (condenserOutTemp + 5)

/-- calculateCondenserPressure: base 5 kPa minus cooling effect, floored
at 1. -/
def calculateCondenserPressure (params : CalculationParams) : ℝ :=
  let coolingEffect := params.coolingWater / 100 * 2
  max 1 (CONDENSER_PRESSURE_BASE - coolingEffect)

/-- calculateFeedwaterPressure: proportional to main steam pressure,
floored at 0.1. -/
def calculateFeedwaterPressure (params : CalculationParams) (mainSteamPressure : ℝ) : ℝ :=
  let pressureRat := params.feedwater / 100
  max 0.1 (mainSteamPressure * pressureRat * 1.2)

/-- Return record of calculateHeaterTemps. -/
structure HeaterTemps where
  h1 : ℝ
  h2 : ℝ
  h3 : ℝ
  h4 : ℝ

/-- calculateHeaterTemps: fixed fractions of main steam temperature. -/
def calculateHeaterTemps (mainSteamTemp : ℝ) : HeaterTemps :=
  ⟨mainSteamTemp * 0.9, mainSteamTemp * 0.7, mainSteamTemp * 0.5, mainSteamTemp * 0.3⟩

/-- calculateGeneratorTemp: 60 plus a load effect, clamped to 40..100. -/
def calculateGeneratorTemp (load : ℝ) : ℝ :=
  max 40 (min 100 (60 + load / 600 * 40))

/-- calculateOilCoolerTemp: 45 plus a speed effect, clamped to 35..70. -/
def calculateOilCoolerTemp (turbineSpeed : ℝ) : ℝ :=
  max 35 (min 70 (45 + turbineSpeed / 3000 * 15))

/-- calculateCoalLoadingRate: coalFeed * 10. -/
def calculateCoalLoadingRate (params : CalculationParams) : ℝ :=
  params.coalFeed * 10

/-- calculateCombustionSpeed: base 50 plus coal and air effects, clamped
to 0..100. -/
def calculateCombustionSpeed (params : CalculationParams) : ℝ :=
  let coalEffect := params.coalFeed / 100 * 30
  let airEffect := params.airSupply / 100 * 20
  max 0 (min 100 (50 + coalEffect + airEffect))

/-- calculateWaterLoadingRate: feedwater * 5. -/
def calculateWaterLoadingRate (params : CalculationParams) : ℝ :=
  params.feedwater * 5

/-- calculateWaterBoilingRate: min of heat-limited and water-limited
rates, floored at 0. -/
def calculateWaterBoilingRate (params : CalculationParams) : ℝ :=
  let heatInput := params.coalFeed * COAL_CALORIFIC_VALUE
  let waterAvailable := params.feedwater * 1000
  max 0 (min (heatInput / 2257) waterAvailable)

/-- calculateSteamGenerationRate = calculateSteamGeneration. -/
def calculateSteamGenerationRate (params : CalculationParams) : ℝ :=
  calculateSteamGeneration params

/-- calculateFuelConsumptionRate: coalFeed * 0.1. -/
def calculateFuelConsumptionRate (params : CalculationParams) : ℝ :=
  params.coalFeed * 0.1

/-- calculateEfficiency: electrical output over heat input in percent,
clamped to 0..50; load is passed explicitly at the call site. -/
def calculateEfficiency (params : CalculationParams) (load : ℝ) : ℝ :=
  let electricalOutput := load * 3600
  let heatInput := params.coalFeed * COAL_CALORIFIC_VALUE
  let efficiency := electricalOutput / heatInput * 100
  max 0 (min 50 efficiency)

/-- calculateEmissionsRate: base emissions scaled by combustion
inefficiency, floored at 0. -/
def calculateEmissionsRate (params : CalculationParams) : ℝ :=
  let combustionEfficiency := calculateBoilerEfficiency params
  let baseEmissions := params.coalFeed * 2
  max 0 (baseEmissions * (1 - combustionEfficiency))

/-- calculateHeatRate: fuel consumption over electrical output, clamped
to 8000..12000. -/
def calculateHeatRate (params : CalculationParams) (load : ℝ) : ℝ :=
  let fuelConsumption := params.coalFeed * COAL_CALORIFIC_VALUE
  let electricalOutput := load * 3600
  max 8000 (min 12000 (fuelConsumption / max electricalOutput 1))

/-- calculateTotalWattageProduced: powerOutput * durationSeconds / 3600. -/
def calculateTotalWattageProduced (powerOutput durationSeconds : ℝ) : ℝ :=
  powerOutput * durationSeconds / 3600

/-- Fields returned by calculateBoilerResponse (a subset of the TS
SystemResponse interface). -/
structure BoilerResponse where
  mainSteamFlow : ℝ
  mainSteamTemp : ℝ
  mainSteamPressure : ℝ
  targetMainSteamFlow : ℝ
  targetMainSteamTemp : ℝ
  targetMainSteamPressure : ℝ

/-- calculateBoilerResponse (calculation.ts lines 481-541): air-fuel
analysis, combustion efficiency, heat transfer, then smoothApproach for
temperature, pressure and steam flow.  The local water-level block
(lines 526-531) is computed in the source but not returned and is
omitted here. -/
def calculateBoilerResponse (params : CalculationParams) (currentState : PrevState)
    (deltaTime : ℝ) : BoilerResponse :=
  let currentTemp := orD currentState.mainSteamTemp STEAM_TEMP_BASE
  let currentPressure := orD currentState.mainSteamPressure STEAM_PRESSURE_BASE
  let currentFlow := orD currentState.mainSteamFlow 0
  let fuelRate := params.coalFeed / 100
  let airRate := params.airSupply / 100
  let feedRate := params.feedwater / 100
  let coolingRate := params.coolingWater / 100
  let stoichiometricRat : ℝ := 15.5
  let actualRat := airRate / max fuelRate 0.01
  let ratioEfficiency := max 0.4 (1 - |actualRat - stoichiometricRat| / stoichiometricRat)
  let combustionEfficiency := ratioEfficiency * (0.7 + fuelRate * 0.3)
  let heatInput := fuelRate * COAL_CALORIFIC_VALUE * combustionEfficiency
  let heatLoss := currentTemp * 0.02 * deltaTime
  let netHeat := heatInput - heatLoss
  let tempChange := netHeat / (4.186 * 1000) * deltaTime / 3600
  let targetTemp := currentTemp + tempChange
  let newTemp := smoothApproach currentTemp targetTemp SMOOTH_FACTORS.temperature deltaTime
  let saturationPressure := (newTemp / 100) ^ 4 * 0.1
  let targetPressure := saturationPressure * (1 + fuelRate * 0.5)
  let newPressure := smoothApproach currentPressure targetPressure SMOOTH_FACTORS.pressure deltaTime
  let maxSteamFlow := fuelRate * 500
  let steamEfficiency := min 1 (newTemp / STEAM_TEMP_BASE) * combustionEfficiency
  let targetSteamFlow := maxSteamFlow * steamEfficiency
  let newSteamFlow := smoothApproach currentFlow targetSteamFlow SMOOTH_FACTORS.steamFlow deltaTime
  ⟨newSteamFlow, newTemp, newPressure,
   targetSteamFlow, newTemp + tempChange, saturationPressure * (1 + fuelRate * 0.5)⟩

/-- Fields returned by calculateTurbineResponse. -/
structure TurbineResponse where
  turbineSpeed : ℝ
  load : ℝ
  targetTurbineSpeed : ℝ
  targetLoad : ℝ

/-- calculateTurbineResponse (calculation.ts lines 543-591): enthalpy
difference, valve-dependent efficiency, mechanical power, then
smoothApproach for speed and load.  The local frequency (line 583) is
computed in the source but not returned. -/
def calculateTurbineResponse (params : CalculationParams) (currentState : PrevState)
    (deltaTime : ℝ) : TurbineResponse :=
  let mainSteamPressure := orD currentState.mainSteamPressure STEAM_PRESSURE_BASE
  let mainSteamTemp := orD currentState.mainSteamTemp STEAM_TEMP_BASE
  let mainSteamFlow := orD currentState.mainSteamFlow 0
  let currentRPM := orD currentState.turbineSpeed 1800
  let currentLoad := orD currentState.load 0
  let valveOpening := params.steamTurbine / 100
  let loadDemand := params.steamFlow / 100
  let steamEnthalpy := 2.0 * mainSteamTemp + 2500
  let condenserEnthalpy := 2.0 * 40 + 2500
  let availableWork := steamEnthalpy - condenserEnthalpy
  let pressureRat := mainSteamPressure / 5.0
  let isentropicEfficiency := TURBINE_EFFICIENCY_BASE * (0.8 + valveOpening * 0.2)
  let actualEfficiency := isentropicEfficiency * min 1 (pressureRat / 3)
  let steamPower := mainSteamFlow * availableWork * actualEfficiency / 3600
  let maxMechanicalPower := steamPower * valveOpening
  let targetRPM := 3000 * (maxMechanicalPower / 600)
  let newRPM := smoothApproach currentRPM targetRPM SMOOTH_FACTORS.rpm deltaTime
  let maxElectricalPower := maxMechanicalPower * GENERATOR_EFFICIENCY
  let targetLoad := min maxElectricalPower (loadDemand * 600)
  let newLoad := smoothApproach currentLoad targetLoad SMOOTH_FACTORS.steamTurbine deltaTime
  let frequency := 50 + (newRPM - 3000) / 60
  ⟨newRPM, newLoad, targetRPM, targetLoad⟩

/-- Fields returned by calculateWaterSystemResponse. -/
structure WaterResponse where
  condensateWaterFlow : ℝ
  circulatingWaterFlow : ℝ

/-- calculateWaterSystemResponse (calculation.ts lines 593-609). -/
def calculateWaterSystemResponse (params : CalculationParams) (currentState : PrevState)
    (deltaTime : ℝ) : WaterResponse :=
  let load := orD currentState.load 0
  let feed := params.feedwater / 50
  let cool := params.coolingWater / 50
  ⟨load * 2, 1000 * cool⟩

/-- Derived indicators returned by the normal branch of
calculateSystemState (lines 738-776).  feedwaterTemp is none because at
its call site params.mainSteamTemp is undefined and the JS computation
yields NaN. -/
structure DerivedState where
  frequency : ℝ
  condensateWaterFlow : ℝ
  circulatingWaterFlow : ℝ
  oilTankLevel : ℝ
  steamOutTurbineTemp : ℝ
  surgeTankTemp : ℝ
  condenserOutTemp : ℝ
  coolingWaterTemp : ℝ
  condenserPressure : ℝ
  feedwaterTemp : Option ℝ
  feedwaterPressure : ℝ
  heater1Temp : ℝ
  heater2Temp : ℝ
  heater3Temp : ℝ
  heater4Temp : ℝ
  generatorTemp : ℝ
  oilCoolerTemp : ℝ
  coalLoadingRate : ℝ
  combustionSpeed : ℝ
  waterLoadingRate : ℝ
  waterBoilingRate : ℝ
  steamGenerationRate : ℝ
  fuelConsumptionRate : ℝ
  efficiency : ℝ
  emissionsRate : ℝ
  heatRate : ℝ
  totalWattageProduced : ℝ
  turbineStatus : String
  generatorStatus : String
  condenserStatus : String
  heaterStatus : String

/-- The Partial SystemState returned by calculateSystemState.  The
shutdown branch returns trip, shutdownTime and the five primary fields
only (derived = none); the normal branch returns trip, the five primary
fields and the derived indicators but no shutdownTime. -/
structure StepOut where
  trip : Bool
  shutdownTime : Option ℝ
  mainSteamFlow : ℝ
  mainSteamPressure : ℝ
  mainSteamTemp : ℝ
  turbineSpeed : ℝ
  load : ℝ
  derived : Option DerivedState

/-- Trip evaluation of calculateSystemState (lines 616-626): boilerTemp
and RPM are read from the previous state with || defaults, the tested
water level is the hard-coded constant 60, and a previous trip is
carried over. -/
def tripCondition (currentState : PrevState) : Bool :=
  let boilerTemp := orD currentState.mainSteamTemp STEAM_TEMP_BASE
  let waterLevel : ℝ := 60
  let currentTurbineRPM := orD currentState.turbineSpeed 1800
  if 620 < boilerTemp ∨ waterLevel < 8 ∨ 95 < waterLevel ∨ 3600 < currentTurbineRPM then
    true
  else
    currentState.trip

/-- Lever override applied when tripped (lines 646-653): coal_feed and
steam_turbine are forced to 0, the other channels pass through. -/
def forcedLevers (l : Levers) : Levers :=
  ⟨0, l.feedwater, l.boiler_pressure, 0,
   l.condenser, l.cooling_water, l.air_supply, l.fuel_injection,
   l.steam_flow, l.water_level, l.exhaust_gas, l.emergency_valve⟩

/-- Shutdown branch of calculateSystemState (lines 628-644): countdown
decrement, multiplicative decay of the primary fields. -/
def shutdownTick (currentState : PrevState) (deltaTime : ℝ) : StepOut :=
  let boilerTemp := orD currentState.mainSteamTemp STEAM_TEMP_BASE
  let shutdownTime := currentState.shutdownTime - deltaTime
  let shutdownFactor := max 0 (shutdownTime / 10)
  { trip := true
    shutdownTime := some (max 0 shutdownTime)
    mainSteamFlow := orD currentState.mainSteamFlow 0 * shutdownFactor
    mainSteamPressure := orD currentState.mainSteamPressure STEAM_PRESSURE_BASE * shutdownFactor
    mainSteamTemp := boilerTemp * 0.995
    turbineSpeed := orD currentState.turbineSpeed 1800 * 0.98
    load := orD currentState.load 0 * shutdownFactor
    derived := none }

/-- State produced by merging the boiler response over the previous
state, as done by the object spread at line 682. -/
def boilerMerge (currentState : PrevState) (b : BoilerResponse) : PrevState :=
  ⟨b.mainSteamFlow, b.mainSteamPressure, b.mainSteamTemp,
   currentState.turbineSpeed, currentState.load,
   currentState.trip, currentState.shutdownTime⟩

/-- State produced by further merging the turbine response, as done by
the object spread at line 683. -/
def turbineMerge (s : PrevState) (t : TurbineResponse) : PrevState :=
  ⟨s.mainSteamFlow, s.mainSteamPressure, s.mainSteamTemp,
   t.turbineSpeed, t.load, s.trip, s.shutdownTime⟩

/-- Normal (non-shutdown) branch of calculateSystemState
(lines 654-777): chained boiler, turbine and water responses, ||
extraction of the primary fields, then the derived indicators. -/
def normalTick (leverValues : Levers) (trip : Bool) (current : PrevState)
    (deltaTime now : ℝ) : StepOut :=
  let params := paramsOfLevers leverValues
  let boilerResponse := calculateBoilerResponse params current deltaTime
  let turbineResponse := calculateTurbineResponse params (boilerMerge current boilerResponse) deltaTime
  let waterResponse := calculateWaterSystemResponse params
    (turbineMerge (boilerMerge current boilerResponse) turbineResponse) deltaTime
  let mainSteamFlow := orD boilerResponse.mainSteamFlow 0
  let mainSteamPressure := orD boilerResponse.mainSteamPressure STEAM_PRESSURE_BASE
  let mainSteamTemp := orD boilerResponse.mainSteamTemp STEAM_TEMP_BASE
  let turbineSpeed := orD turbineResponse.turbineSpeed 0
  let load := orD turbineResponse.load 0
  let condensateWaterFlow := orD waterResponse.condensateWaterFlow 0
  let circulatingWaterFlow := orD waterResponse.circulatingWaterFlow 1000
  let frequency := calculateFrequencyFromLoad load
  let oilTankLevel := calculateOilTankLevel now
  let steamOutTurbineTemp := calculateSteamOutTurbineTemp mainSteamTemp turbineSpeed
  let surgeTankTemp := calculateSurgeTankTemp mainSteamTemp mainSteamFlow
  let condenserOutTemp := calculateCondenserOutTemp params
  let coolingWaterTemp := calculateCoolingWaterTemp condenserOutTemp
  let condenserPressure := calculateCondenserPressure params
  let feedwaterPressure := calculateFeedwaterPressure params mainSteamPressure
  let heaterTemps := calculateHeaterTemps mainSteamTemp
  let generatorTemp := calculateGeneratorTemp load
  let oilCoolerTemp := calculateOilCoolerTemp turbineSpeed
  let coalLoadingRate := calculateCoalLoadingRate params
  let combustionSpeed := calculateCombustionSpeed params
  let waterLoadingRate := calculateWaterLoadingRate params
  let waterBoilingRate := calculateWaterBoilingRate params
  let steamGenerationRate := calculateSteamGenerationRate params
  let fuelConsumptionRate := calculateFuelConsumptionRate params
  let efficiency := calculateEfficiency params load
  let emissionsRate := calculateEmissionsRate params
  let heatRate := calculateHeatRate params load
  let totalWattageProduced := calculateTotalWattageProduced load deltaTime
  let turbineStatus := if 0 < turbineSpeed then "running" else "stopped"
  let generatorStatus := if 0 < load then "online" else "offline"
  let condenserStatus := if condenserOutTemp < 50 then "normal" else "high_temp"
  let heaterStatus := if heaterTemps.h1 < 200 then "normal" else "high_temp"
  { trip := trip
    shutdownTime := none
    mainSteamFlow := mainSteamFlow
    mainSteamPressure := mainSteamPressure
    mainSteamTemp := mainSteamTemp
    turbineSpeed := turbineSpeed
    load := load
    derived := some
      { frequency := frequency
        condensateWaterFlow := condensateWaterFlow
        circulatingWaterFlow := circulatingWaterFlow
        oilTankLevel := oilTankLevel
        steamOutTurbineTemp := steamOutTurbineTemp
        surgeTankTemp := surgeTankTemp
        condenserOutTemp := condenserOutTemp
        coolingWaterTemp := coolingWaterTemp
        condenserPressure := condenserPressure
        feedwaterTemp := none
        feedwaterPressure := feedwaterPressure
        heater1Temp := heaterTemps.h1
        heater2Temp := heaterTemps.h2
        heater3Temp := heaterTemps.h3
        heater4Temp := heaterTemps.h4
        generatorTemp := generatorTemp
        oilCoolerTemp := oilCoolerTemp
        coalLoadingRate := coalLoadingRate
        combustionSpeed := combustionSpeed
        waterLoadingRate := waterLoadingRate
        waterBoilingRate := waterBoilingRate
        steamGenerationRate := steamGenerationRate
        fuelConsumptionRate := fuelConsumptionRate
        efficiency := efficiency
        emissionsRate := emissionsRate
        heatRate := heatRate
        totalWattageProduced := totalWattageProduced
        turbineStatus := turbineStatus
        generatorStatus := generatorStatus
        condenserStatus := condenserStatus
        heaterStatus := heaterStatus } }

/-- calculateSystemState (calculation.ts lines 611-777): trip
evaluation, then either the shutdown branch (when shutdownTime is a
truthy positive number) or the normal branch with the lever override
applied when tripped. -/
def calculateSystemState (leverValues : Levers) (currentState : PrevState)
    (deltaTime now : ℝ) : StepOut :=
  let trip := tripCondition currentState
  if 0 < currentState.shutdownTime then
    shutdownTick currentState deltaTime
  else
    normalTick (if trip then forcedLevers leverValues else leverValues)
      trip currentState deltaTime now

/-- calculateEarnings (calculation.ts lines 779-784): MWh times the rate
of 1,000,000 Rupiah per MWh. -/
def calculateEarnings (powerOutput durationSeconds : ℝ) : ℝ :=
  let powerMWh := powerOutput * durationSeconds / 3600
  let ratePerMWh : ℝ := 1000000
  powerMWh * ratePerMWh

/-- calculateEarnings of the second calculation variant (lines
1730-1741): kWh times 0.01 Rupiah per kWh, floored at 0. -/
def calculateEarningsV2 (powerOutput durationSeconds : ℝ) : ℝ :=
  let electricityPrice : ℝ := 0.01
  let energyKWh := powerOutput * 1000 * (durationSeconds / 3600)
  let earnings := energyKWh * electricityPrice
  max 0 earnings

/-- Engine-relevant projection of the state installed by resetSystem
(simulatorStore.ts lines 491-508): initialSystemState with trip false
and shutdownTime 0; its primary fields are all 0. -/
def resetSystemState : PrevState := ⟨0, 0, 0, 0, 0, false, 0⟩

/-- shutdownSystem (simulatorStore.ts lines 510-518): sets the 10-second
countdown and asserts trip, leaving the other fields alone. -/
def shutdownSystem (s : PrevState) : PrevState :=
  ⟨s.mainSteamFlow, s.mainSteamPressure, s.mainSteamTemp,
   s.turbineSpeed, s.load, true, 10⟩

/-- The spec phrase strictly between current and target. -/
def strictlyBetween (a b x : ℝ) : Prop := (a < x ∧ x < b) ∨ (b < x ∧ x < a)

/-- The zero lever vector: every channel at 0, inside the 0..100 range. -/
def leversZero : Levers := ⟨0, 0, 0, 0, 0, 0, 0, 0, 0, 0, 0, 0⟩

theorem orD_zero_right (x : ℝ) : orD x 0 = x := by
  unfold orD
  split
  next h => rw [h]
  next h => rfl

theorem orD_of_ne {x : ℝ} (d : ℝ) (h : x ≠ 0) : orD x d = x := if_neg h

theorem orD_nonneg {x d : ℝ} (hx : 0 ≤ x) (hd : 0 ≤ d) : 0 ≤ orD x d := by
  unfold orD
  split <;> assumption

theorem orD_gt_iff {x d c : ℝ} (hd : d ≤ c) (h0 : 0 ≤ c) : c < orD x d ↔ c < x := by
  unfold orD
  split
  next h => rw [h]; constructor <;> intro hlt <;> linarith
  next h => exact Iff.rfl

theorem smoothApproach_self (x r dt : ℝ) : smoothApproach x x r dt = x := by
  unfold smoothApproach
  ring

theorem smoothApproach_dt_zero (c t r : ℝ) : smoothApproach c t r 0 = c := by
  unfold smoothApproach
  simp

theorem smoothApproach_to_zero (c r dt : ℝ) :
    smoothApproach c 0 r dt = c * Real.exp (-(r * dt)) := by
  unfold smoothApproach
  ring

/-- The interpolation coefficient 1 - exp(-(r*dt)) lies in 0..1 whenever
r*dt is nonnegative. -/
theorem smooth_coeff_mem {r dt : ℝ} (h : 0 ≤ r * dt) :
    0 ≤ 1 - Real.exp (-(r * dt)) ∧ 1 - Real.exp (-(r * dt)) ≤ 1 := by
  have h1 : Real.exp (-(r * dt)) ≤ 1 := by
    rw [Real.exp_le_one_iff]; linarith
  have h2 : 0 < Real.exp (-(r * dt)) := Real.exp_pos _
  constructor <;> linarith

theorem smoothApproach_le_of_le {c t b r dt : ℝ} (hc : c ≤ b) (ht : t ≤ b)
    (h : 0 ≤ r * dt) : smoothApproach c t r dt ≤ b := by
  obtain ⟨hk0, hk1⟩ := smooth_coeff_mem h
  have e1 : 0 ≤ (b - c) * (1 - (1 - Real.exp (-(r * dt)))) :=
    mul_nonneg (by linarith) (by linarith)
  have e2 : 0 ≤ (b - t) * (1 - Real.exp (-(r * dt))) :=
    mul_nonneg (by linarith) hk0
  unfold smoothApproach
  nlinarith

theorem le_smoothApproach_of_le {c t b r dt : ℝ} (hc : b ≤ c) (ht : b ≤ t)
    (h : 0 ≤ r * dt) : b ≤ smoothApproach c t r dt := by
  obtain ⟨hk0, hk1⟩ := smooth_coeff_mem h
  have e1 : 0 ≤ (c - b) * (1 - (1 - Real.exp (-(r * dt)))) :=
    mul_nonneg (by linarith) (by linarith)
  have e2 : 0 ≤ (t - b) * (1 - Real.exp (-(r * dt))) :=
    mul_nonneg (by linarith) hk0
  unfold smoothApproach
  nlinarith

theorem smoothApproach_strictlyBetween {c t r dt : ℝ} (hr : 0 < r) (hdt : 0 < dt)
    (hne : c ≠ t) : strictlyBetween c t (smoothApproach c t r dt) := by
  have hrdt : 0 < r * dt := mul_pos hr hdt
  have hE1 : Real.exp (-(r * dt)) < 1 := by
    rw [Real.exp_lt_one_iff]; linarith
  have hE0 : 0 < Real.exp (-(r * dt)) := Real.exp_pos _
  unfold strictlyBetween smoothApproach
  rcases lt_or_gt_of_ne hne with h | h
  · left
    constructor
    · nlinarith
    · nlinarith
  · right
    constructor
    · nlinarith
    · nlinarith

/-- Branch lemma: with a positive shutdownTime the engine takes the
shutdown branch. -/
theorem calculateSystemState_shutdown (l : Levers) (prev : PrevState) (dt now : ℝ)
    (h : 0 < prev.shutdownTime) :
    calculateSystemState l prev dt now = shutdownTick prev dt := by
  unfold calculateSystemState
  rw [if_pos h]

/-- Branch lemma: with shutdownTime at or below 0 the engine takes the
normal branch, with the lever override applied exactly when the trip
evaluation holds. -/
theorem calculateSystemState_normal (l : Levers) (prev : PrevState) (dt now : ℝ)
    (h : prev.shutdownTime ≤ 0) :
    calculateSystemState l prev dt now =
      normalTick (if tripCondition prev then forcedLevers l else l)
        (tripCondition prev) prev dt now := by
  unfold calculateSystemState
  rw [if_neg (not_lt.2 h)]

theorem normalTick_trip (l : Levers) (t : Bool) (prev : PrevState) (dt now : ℝ) :
    (normalTick l t prev dt now).trip = t := rfl

theorem tripCondition_of_trip {prev : PrevState} (h : prev.trip = true) :
    tripCondition prev = true := by
  simp only [tripCondition]
  split
  · rfl
  · exact h

theorem tripCondition_eq_true_iff {prev : PrevState} (h : prev.trip = false) :
    tripCondition prev = true ↔ (620 < prev.mainSteamTemp ∨ 3600 < prev.turbineSpeed) := by
  have hA : 620 < orD prev.mainSteamTemp STEAM_TEMP_BASE ↔ 620 < prev.mainSteamTemp :=
    orD_gt_iff (by norm_num [STEAM_TEMP_BASE]) (by norm_num)
  have hB : (3600 : ℝ) < orD prev.turbineSpeed 1800 ↔ 3600 < prev.turbineSpeed :=
    orD_gt_iff (by norm_num) (by norm_num)
  simp only [tripCondition]
  split
  next hC =>
    constructor
    · intro _
      rcases hC with h1 | h2 | h3 | h4
      · exact Or.inl (hA.mp h1)
      · norm_num at h2
      · norm_num at h3
      · exact Or.inr (hB.mp h4)
    · intro _; rfl
  next hC =>
    rw [h]
    constructor
    · intro hfalse; simp at hfalse
    · intro hR
      exfalso
      apply hC
      rcases hR with h1 | h2
      · exact Or.inl (hA.mpr h1)
      · exact Or.inr (Or.inr (Or.inr (hB.mpr h2)))

theorem orD_self_base (d : ℝ) : orD 0 d = d := if_pos rfl

theorem normalTick_mainSteamPressure (l : Levers) (t : Bool) (prev : PrevState) (dt now : ℝ) :
    (normalTick l t prev dt now).mainSteamPressure =
      orD (calculateBoilerResponse (paramsOfLevers l) prev dt).mainSteamPressure
        STEAM_PRESSURE_BASE := rfl

theorem normalTick_mainSteamTemp (l : Levers) (t : Bool) (prev : PrevState) (dt now : ℝ) :
    (normalTick l t prev dt now).mainSteamTemp =
      orD (calculateBoilerResponse (paramsOfLevers l) prev dt).mainSteamTemp
        STEAM_TEMP_BASE := rfl

theorem normalTick_turbineSpeed (l : Levers) (t : Bool) (prev : PrevState) (dt now : ℝ) :
    (normalTick l t prev dt now).turbineSpeed =
      orD (calculateTurbineResponse (paramsOfLevers l)
        (boilerMerge prev (calculateBoilerResponse (paramsOfLevers l) prev dt)) dt).turbineSpeed
        0 := rfl

theorem normalTick_load (l : Levers) (t : Bool) (prev : PrevState) (dt now : ℝ) :
    (normalTick l t prev dt now).load =
      orD (calculateTurbineResponse (paramsOfLevers l)
        (boilerMerge prev (calculateBoilerResponse (paramsOfLevers l) prev dt)) dt).load
        0 := rfl

theorem normalTick_frequency (l : Levers) (t : Bool) (prev : PrevState) (dt now : ℝ) :
    ((normalTick l t prev dt now).derived.map DerivedState.frequency) =
      some (calculateFrequencyFromLoad ((normalTick l t prev dt now).load)) := rfl

/-- With no coal feed and no previous steam flow the boiler response
produces zero steam flow. -/
theorem calculateBoilerResponse_flow_zero (p : CalculationParams) (s : PrevState) (dt : ℝ)
    (hc : p.coalFeed = 0) (hf : s.mainSteamFlow = 0) :
    (calculateBoilerResponse p s dt).mainSteamFlow = 0 := by
  simp only [calculateBoilerResponse, hc, hf, orD_self_base]
  norm_num [smoothApproach_self]

/-- With zero merged steam flow the turbine target speed is 0 and the
new speed is the pure exponential decay of the previous speed. -/
theorem calculateTurbineResponse_speed_zero_flow (p : CalculationParams) (s : PrevState)
    (dt : ℝ) (hf : s.mainSteamFlow = 0) :
    (calculateTurbineResponse p s dt).turbineSpeed =
      smoothApproach (orD s.turbineSpeed 1800) 0 SMOOTH_FACTORS.rpm dt := by
  simp only [calculateTurbineResponse, hf, orD_self_base]
  norm_num

/-- With zero merged steam flow the turbine target load is
min 0 (steamFlow lever driven demand). -/
theorem calculateTurbineResponse_load_zero_flow (p : CalculationParams) (s : PrevState)
    (dt : ℝ) (hf : s.mainSteamFlow = 0) :
    (calculateTurbineResponse p s dt).load =
      smoothApproach (orD s.load 0) (min 0 (p.steamFlow / 100 * 600))
        SMOOTH_FACTORS.steamTurbine dt := by
  simp only [calculateTurbineResponse, hf, orD_self_base]
  norm_num

/-- The boiler pressure output is a smoothing between the (defaulted)
previous pressure and a nonnegative target, hence nonnegative whenever
the previous pressure and the coal feed are. -/
theorem calculateBoilerResponse_pressure_nonneg (p : CalculationParams) (s : PrevState)
    (dt : ℝ) (hc : 0 ≤ p.coalFeed) (hp : 0 ≤ s.mainSteamPressure) (hdt : 0 ≤ dt) :
    0 ≤ (calculateBoilerResponse p s dt).mainSteamPressure := by
  simp only [calculateBoilerResponse]
  apply le_smoothApproach_of_le
  · exact orD_nonneg hp (by norm_num [STEAM_PRESSURE_BASE])
  · have h1 : 0 ≤ p.coalFeed / 100 * 0.5 := by positivity
    have h2 : (0:ℝ) ≤ 1 + p.coalFeed / 100 * 0.5 := by linarith
    positivity
  · exact mul_nonneg (by norm_num [SMOOTH_FACTORS.pressure]) hdt

/-- The turbine load output is a smoothing between the previous load and
a target capped by the steam-flow lever demand, hence at most 600
whenever the previous load is and the lever is within range. -/
theorem calculateTurbineResponse_load_le (p : CalculationParams) (s : PrevState) (dt : ℝ)
    (hsf : p.steamFlow ≤ 100) (hload : s.load ≤ 600) (hdt : 0 ≤ dt) :
    (calculateTurbineResponse p s dt).load ≤ 600 := by
  simp only [calculateTurbineResponse]
  apply smoothApproach_le_of_le
  · rw [orD_zero_right]; exact hload
  · refine le_trans (min_le_right _ _) ?_
    have h : p.steamFlow / 100 * 600 = p.steamFlow * 6 := by ring
    rw [h]; linarith
  · exact mul_nonneg (by norm_num [SMOOTH_FACTORS.steamTurbine]) hdt

/-- Concrete counterexample state: an overspeeding previous turbine. -/
def prevOverspeed : PrevState := ⟨0, 16.5, 540, 10000, 0, false, 0⟩

/-- Concrete state at rated speed, used against the droop formula. -/
def prevRated : PrevState := ⟨0, 16.5, 540, 3000, 0, false, 0⟩

/-- Concrete state with the boiler over the 620 ceiling. -/
def prevHot : PrevState := ⟨0, 16.5, 700, 1800, 0, false, 0⟩

/-- Concrete tripped state with an expired countdown. -/
def prevTripped : PrevState := ⟨0, 16.5, 500, 1800, 0, true, 0⟩

/-- Concrete shutdown state whose countdown exceeds the configured 10 s. -/
def prevShutdownLong : PrevState := ⟨0, 16.5, 540, 3000, 100, true, 20⟩

/-- Concrete well-formed shutdown state (countdown within 10 s). -/
def prevShutdown : PrevState := ⟨1, 2, 3, 4, 5, true, 5⟩

/-- Lever vector agreeing with leversZero off the coal_feed and
steam_turbine channels. -/
def leversA : Levers := ⟨100, 0, 0, 50, 0, 0, 0, 0, 0, 0, 0, 0⟩

/-- Shared trip helper: a previous boiler temperature over 620 or an
already latched trip yields a tripped output, in either branch. -/
theorem step_trip_true (l : Levers) (prev : PrevState) (dt now : ℝ)
    (h : 620 < prev.mainSteamTemp ∨ prev.trip = true) :
    (calculateSystemState l prev dt now).trip = true := by
  by_cases hs : 0 < prev.shutdownTime
  · rw [calculateSystemState_shutdown l prev dt now hs]
    rfl
  · rw [calculateSystemState_normal l prev dt now (not_lt.1 hs), normalTick_trip]
    rcases h with hT | hB
    · simp only [tripCondition]
      rw [if_pos]
      exact Or.inl ((orD_gt_iff (by norm_num [STEAM_TEMP_BASE]) (by norm_num)).mpr hT)
    · exact tripCondition_of_trip hB

/-- With the all-zero lever vector the trip override is invisible, so a
normal tick is the normal branch at leversZero whatever the trip state. -/
theorem step_zero_levers_eq (prev : PrevState) (dt now : ℝ) (hs : prev.shutdownTime ≤ 0) :
    calculateSystemState leversZero prev dt now =
      normalTick leversZero (tripCondition prev) prev dt now := by
  rw [calculateSystemState_normal leversZero prev dt now hs,
    show forcedLevers leversZero = leversZero from rfl, ite_self]

/-- Evaluation: from prevOverspeed under zero levers, the new turbine
speed is the exponential decay of 10000 RPM. -/
theorem step_overspeed_turbineSpeed :
    (calculateSystemState leversZero prevOverspeed 1 0).turbineSpeed =
      10000 * Real.exp (-(SMOOTH_FACTORS.rpm * 1)) := by
  rw [step_zero_levers_eq prevOverspeed 1 0 (by norm_num [prevOverspeed]),
    normalTick_turbineSpeed, orD_zero_right]
  have hf : (boilerMerge prevOverspeed
      (calculateBoilerResponse (paramsOfLevers leversZero) prevOverspeed 1)).mainSteamFlow = 0 :=
    calculateBoilerResponse_flow_zero _ _ _ rfl rfl
  rw [calculateTurbineResponse_speed_zero_flow _ _ _ hf]
  rw [show (boilerMerge prevOverspeed
      (calculateBoilerResponse (paramsOfLevers leversZero) prevOverspeed 1)).turbineSpeed =
      (10000:ℝ) from rfl]
  rw [orD_of_ne _ (by norm_num), smoothApproach_to_zero]

/-- Evaluation: from prevRated under zero levers, the new turbine speed
is the exponential decay of 3000 RPM. -/
theorem step_rated_turbineSpeed :
    (calculateSystemState leversZero prevRated 1 0).turbineSpeed =
      3000 * Real.exp (-(SMOOTH_FACTORS.rpm * 1)) := by
  rw [step_zero_levers_eq prevRated 1 0 (by norm_num [prevRated]),
    normalTick_turbineSpeed, orD_zero_right]
  have hf : (boilerMerge prevRated
      (calculateBoilerResponse (paramsOfLevers leversZero) prevRated 1)).mainSteamFlow = 0 :=
    calculateBoilerResponse_flow_zero _ _ _ rfl rfl
  rw [calculateTurbineResponse_speed_zero_flow _ _ _ hf]
  rw [show (boilerMerge prevRated
      (calculateBoilerResponse (paramsOfLevers leversZero) prevRated 1)).turbineSpeed =
      (3000:ℝ) from rfl]
  rw [orD_of_ne _ (by norm_num), smoothApproach_to_zero]

/-- Evaluation: from prevRated under zero levers, the new load is 0. -/
theorem step_rated_load :
    (calculateSystemState leversZero prevRated 1 0).load = 0 := by
  rw [step_zero_levers_eq prevRated 1 0 (by norm_num [prevRated]),
    normalTick_load, orD_zero_right]
  have hf : (boilerMerge prevRated
      (calculateBoilerResponse (paramsOfLevers leversZero) prevRated 1)).mainSteamFlow = 0 :=
    calculateBoilerResponse_flow_zero _ _ _ rfl rfl
  rw [calculateTurbineResponse_load_zero_flow _ _ _ hf]
  rw [show (boilerMerge prevRated
      (calculateBoilerResponse (paramsOfLevers leversZero) prevRated 1)).load =
      (0:ℝ) from rfl]
  rw [show (paramsOfLevers leversZero).steamFlow = (0:ℝ) from rfl, orD_self_base]
  norm_num [smoothApproach_self]

/-- Evaluation: from prevRated under zero levers, the output frequency
indicator is 49.5 Hz (load-based formula at zero load). -/
theorem step_rated_frequency :
    (calculateSystemState leversZero prevRated 1 0).derived.map DerivedState.frequency =
      some 49.5 := by
  have hs : prevRated.shutdownTime ≤ 0 := by norm_num [prevRated]
  have hl : (normalTick leversZero (tripCondition prevRated) prevRated 1 0).load = 0 := by
    rw [← step_zero_levers_eq prevRated 1 0 hs]
    exact step_rated_load
  rw [step_zero_levers_eq prevRated 1 0 hs, normalTick_frequency, hl]
  norm_num [calculateFrequencyFromLoad, calculateFrequency]

/-- Evaluation: boiler temperature under no coal feed is a smoothing of
the defaulted previous temperature toward its heat-loss target. -/
theorem calculateBoilerResponse_temp_zero_coal (p : CalculationParams) (s : PrevState)
    (dt : ℝ) (hc : p.coalFeed = 0) :
    (calculateBoilerResponse p s dt).mainSteamTemp =
      smoothApproach (orD s.mainSteamTemp STEAM_TEMP_BASE)
        (orD s.mainSteamTemp STEAM_TEMP_BASE +
          (0 - orD s.mainSteamTemp STEAM_TEMP_BASE * 0.02 * dt) / (4.186 * 1000) * dt / 3600)
        SMOOTH_FACTORS.temperature dt := by
  simp only [calculateBoilerResponse, hc]
  norm_num

/-- Evaluation: from prevTripped (trip latched, countdown expired) under
zero levers, the output temperature strictly drops below the previous
500 while staying above 499. -/
theorem step_tripped_mainSteamTemp_bounds :
    (calculateSystemState leversZero prevTripped 1 0).mainSteamTemp < 500 ∧
      499 < (calculateSystemState leversZero prevTripped 1 0).mainSteamTemp := by
  have hO : orD prevTripped.mainSteamTemp STEAM_TEMP_BASE = 500 := by
    rw [show prevTripped.mainSteamTemp = (500:ℝ) from rfl]
    exact orD_of_ne _ (by norm_num)
  have hbt := calculateBoilerResponse_temp_zero_coal (paramsOfLevers leversZero) prevTripped 1 rfl
  rw [hO] at hbt
  have hE0 : 0 < Real.exp (-(SMOOTH_FACTORS.temperature * 1)) := Real.exp_pos _
  have hE1 : Real.exp (-(SMOOTH_FACTORS.temperature * 1)) < 1 := by
    rw [Real.exp_lt_one_iff]
    norm_num [SMOOTH_FACTORS.temperature]
  have hlt : smoothApproach 500 (500 + (0 - 500 * 0.02 * 1) / (4.186 * 1000) * 1 / 3600)
      SMOOTH_FACTORS.temperature 1 < 500 ∧
      (499:ℝ) < smoothApproach 500 (500 + (0 - 500 * 0.02 * 1) / (4.186 * 1000) * 1 / 3600)
      SMOOTH_FACTORS.temperature 1 := by
    unfold smoothApproach
    constructor <;> nlinarith
  rw [step_zero_levers_eq prevTripped 1 0 (by norm_num [prevTripped]),
    normalTick_mainSteamTemp, hbt,
    orD_of_ne _ (by intro h0; rw [h0] at hlt; linarith [hlt.2])]
  exact hlt

/-- C1: once the previous boiler temperature exceeds the 620 ceiling, or
trip is already latched, the output trip is true in either branch; and
resetSystem restores the baseline state with trip cleared and
shutdownTime 0. -/
theorem C1_trip_latching :
    (∀ (l : Levers) (prev : PrevState) (dt now : ℝ),
      620 < prev.mainSteamTemp ∨ prev.trip = true →
      (calculateSystemState l prev dt now).trip = true) ∧
    resetSystemState.trip = false ∧ resetSystemState.shutdownTime = 0 :=
  ⟨step_trip_true, rfl, rfl⟩

/-- Witness for C1 at a concrete over-temperature state. -/
theorem C1_trip_latching_witness :
    (620:ℝ) < prevHot.mainSteamTemp ∧
    (calculateSystemState leversZero prevHot 1 0).trip = true :=
  ⟨by norm_num [prevHot],
   C1_trip_latching.1 leversZero prevHot 1 0 (Or.inl (by norm_num [prevHot]))⟩

/-- C2: with trip latched and shutdownTime 0, lever vectors differing
only in coal_feed and steam_turbine produce identical outputs, equal to
the output with those two channels forced to 0. -/
theorem C2_tripped_noninterference (lA lB : Levers) (prev : PrevState) (dt now : ℝ)
    (htrip : prev.trip = true) (hsdt : prev.shutdownTime = 0)
    (h1 : lA.feedwater = lB.feedwater) (h2 : lA.boiler_pressure = lB.boiler_pressure)
    (h3 : lA.condenser = lB.condenser) (h4 : lA.cooling_water = lB.cooling_water)
    (h5 : lA.air_supply = lB.air_supply) (h6 : lA.fuel_injection = lB.fuel_injection)
    (h7 : lA.steam_flow = lB.steam_flow) (h8 : lA.water_level = lB.water_level)
    (h9 : lA.exhaust_gas = lB.exhaust_gas) (h10 : lA.emergency_valve = lB.emergency_valve) :
    calculateSystemState lA prev dt now = calculateSystemState lB prev dt now ∧
    calculateSystemState lA prev dt now =
      calculateSystemState (forcedLevers lA) prev dt now := by
  have hforce : forcedLevers lA = forcedLevers lB := by
    unfold forcedLevers
    rw [h1, h2, h3, h4, h5, h6, h7, h8, h9, h10]
  have hs : prev.shutdownTime ≤ 0 := le_of_eq hsdt
  have key : ∀ lev : Levers,
      calculateSystemState lev prev dt now = normalTick (forcedLevers lev) true prev dt now := by
    intro lev
    have h := calculateSystemState_normal lev prev dt now hs
    rw [tripCondition_of_trip htrip] at h
    exact h.trans rfl
  constructor
  · rw [key lA, key lB, hforce]
  · rw [key lA, key (forcedLevers lA)]
    rfl

/-- Witness for C2 at a concrete tripped state and two lever vectors
differing only in coal_feed and steam_turbine. -/
theorem C2_tripped_noninterference_witness :
    prevTripped.trip = true ∧ prevTripped.shutdownTime = 0 ∧
    calculateSystemState leversA prevTripped 1 0 =
      calculateSystemState leversZero prevTripped 1 0 ∧
    calculateSystemState leversA prevTripped 1 0 =
      calculateSystemState (forcedLevers leversA) prevTripped 1 0 := by
  have h := C2_tripped_noninterference leversA leversZero prevTripped 1 0 rfl rfl
    rfl rfl rfl rfl rfl rfl rfl rfl rfl rfl
  exact ⟨rfl, rfl, h.1, h.2⟩

/-- C3 counterexample: with current = target the output equals both
endpoints, so it is not strictly between them even though rate and dt
are positive. -/
theorem C3_counterexample :
    (0:ℝ) < 1 ∧ ¬ strictlyBetween 0 0 (smoothApproach 0 0 1 1) := by
  refine ⟨one_pos, ?_⟩
  rw [smoothApproach_self]
  unfold strictlyBetween
  simp

/-- C3 as amended: the formula holds definitionally, the output is
strictly between current and target when they differ and rate, dt are
positive, dt = 0 is a no-op, and the diagonal is fixed. -/
theorem C3_amended :
    (∀ current target rate dt : ℝ,
      smoothApproach current target rate dt =
        current + (target - current) * (1 - Real.exp (-(rate * dt)))) ∧
    (∀ current target rate dt : ℝ, 0 < rate → 0 < dt → current ≠ target →
      strictlyBetween current target (smoothApproach current target rate dt)) ∧
    (∀ current target rate : ℝ, smoothApproach current target rate 0 = current) ∧
    (∀ x rate dt : ℝ, smoothApproach x x rate dt = x) :=
  ⟨fun _ _ _ _ => rfl,
   fun _ _ _ _ hr hdt hne => smoothApproach_strictlyBetween hr hdt hne,
   smoothApproach_dt_zero, smoothApproach_self⟩

/-- Witness for C3 at concrete distinct endpoints. -/
theorem C3_amended_witness :
    (0:ℝ) < 1 ∧ (0:ℝ) ≠ 1 ∧ strictlyBetween 0 1 (smoothApproach 0 1 1 1) :=
  ⟨one_pos, by norm_num, C3_amended.2.1 0 1 1 1 one_pos one_pos (by norm_num)⟩

/-- C4 counterexample: at dt = -1 the state is not returned unchanged;
the trip evaluation still runs and flips the trip field. -/
theorem C4_counterexample :
    (-1:ℝ) ≤ 0 ∧ (calculateSystemState leversZero prevHot (-1) 0).trip ≠ prevHot.trip := by
  refine ⟨by norm_num, ?_⟩
  rw [step_trip_true leversZero prevHot (-1) 0 (Or.inl (by norm_num [prevHot]))]
  simp [prevHot]

/-- C4 as amended: calculateSystemState applies no dt guard, so a tick
with dt at or below 0 is processed by the same rules as any other; in
particular the trip evaluation still fires. -/
theorem C4_amended (l : Levers) (prev : PrevState) (dt now : ℝ)
    (hdt : dt ≤ 0) (hT : 620 < prev.mainSteamTemp) :
    (calculateSystemState l prev dt now).trip = true :=
  step_trip_true l prev dt now (Or.inl hT)

/-- Witness for C4 at dt = -1. -/
theorem C4_amended_witness :
    (-1:ℝ) ≤ 0 ∧ (620:ℝ) < prevHot.mainSteamTemp ∧
    (calculateSystemState leversA prevHot (-1) 0).trip = true :=
  ⟨by norm_num, by norm_num [prevHot],
   C4_amended leversA prevHot (-1) 0 (by norm_num) (by norm_num [prevHot])⟩

/-- C5 counterexample: the turbine speed output is not clamped to the
3600 ceiling: from a previous speed of 10000 with all levers at 0 (all
within 0..100) and dt = 1, the output speed is still above 3600. -/
theorem C5_counterexample :
    (0:ℝ) < 1 ∧ 3600 < (calculateSystemState leversZero prevOverspeed 1 0).turbineSpeed := by
  refine ⟨one_pos, ?_⟩
  rw [step_overspeed_turbineSpeed]
  have h := Real.add_one_le_exp (-(SMOOTH_FACTORS.rpm * 1))
  have hr : SMOOTH_FACTORS.rpm * 1 = (0.03:ℝ) := by norm_num [SMOOTH_FACTORS.rpm]
  rw [hr] at h ⊢
  nlinarith [h]

/-- C5 as amended: the primary outputs are unclamped smoothings between
the defaulted previous value and the tick target; consequently the
pressure stays nonnegative and the load stays at most 600 only relative
to a previous state already satisfying those bounds. -/
theorem C5_amended (l : Levers) (prev : PrevState) (dt now : ℝ)
    (hdt : 0 < dt) (hs : prev.shutdownTime ≤ 0)
    (hc : 0 ≤ l.coal_feed) (hsf : l.steam_flow ≤ 100)
    (hp : 0 ≤ prev.mainSteamPressure) (hload : prev.load ≤ 600) :
    0 ≤ (calculateSystemState l prev dt now).mainSteamPressure ∧
    (calculateSystemState l prev dt now).load ≤ 600 := by
  rw [calculateSystemState_normal l prev dt now hs]
  set lev := if tripCondition prev then forcedLevers l else l with hlev
  have hc2 : 0 ≤ lev.coal_feed := by
    rw [hlev]
    split
    · exact le_refl 0
    · exact hc
  have hsf2 : lev.steam_flow ≤ 100 := by
    rw [hlev]
    split
    · exact hsf
    · exact hsf
  constructor
  · rw [normalTick_mainSteamPressure]
    exact orD_nonneg
      (calculateBoilerResponse_pressure_nonneg _ _ _ hc2 hp (le_of_lt hdt))
      (by norm_num [STEAM_PRESSURE_BASE])
  · rw [normalTick_load, orD_zero_right]
    exact calculateTurbineResponse_load_le _ _ _ hsf2 hload (le_of_lt hdt)

/-- Witness for C5 at the baseline state. -/
theorem C5_amended_witness :
    (0:ℝ) < 1 ∧ resetSystemState.shutdownTime ≤ 0 ∧
    0 ≤ (calculateSystemState leversZero resetSystemState 1 0).mainSteamPressure ∧
    (calculateSystemState leversZero resetSystemState 1 0).load ≤ 600 := by
  have h := C5_amended leversZero resetSystemState 1 0 one_pos (le_refl 0)
    (le_refl 0) (by norm_num [leversZero]) (le_refl 0) (by norm_num [resetSystemState])
  exact ⟨one_pos, le_refl 0, h.1, h.2⟩

/-- C6 counterexample: with a countdown of 20 s (above the configured
10 s) the shutdown factor exceeds 1 and the load strictly increases,
refuting non-increase for arbitrary positive shutdownTime. -/
theorem C6_counterexample :
    0 < prevShutdownLong.shutdownTime ∧ (0:ℝ) < 1 ∧
    0 ≤ prevShutdownLong.mainSteamTemp ∧ 0 ≤ prevShutdownLong.turbineSpeed ∧
    0 ≤ prevShutdownLong.load ∧ 0 ≤ prevShutdownLong.mainSteamFlow ∧
    0 ≤ prevShutdownLong.mainSteamPressure ∧
    prevShutdownLong.load < (calculateSystemState leversZero prevShutdownLong 1 0).load := by
  refine ⟨by norm_num [prevShutdownLong], one_pos, by norm_num [prevShutdownLong],
    by norm_num [prevShutdownLong], by norm_num [prevShutdownLong],
    by norm_num [prevShutdownLong], by norm_num [prevShutdownLong], ?_⟩
  rw [calculateSystemState_shutdown _ _ _ _ (by norm_num [prevShutdownLong])]
  show prevShutdownLong.load <
    orD prevShutdownLong.load 0 * max 0 ((prevShutdownLong.shutdownTime - 1) / 10)
  rw [orD_zero_right, show prevShutdownLong.load = (100:ℝ) from rfl,
    show prevShutdownLong.shutdownTime = (20:ℝ) from rfl,
    max_eq_right (by norm_num : (0:ℝ) ≤ (20 - 1) / 10)]
  norm_num

/-- C6 as amended: during a well-formed countdown (0 < shutdownTime at
most the configured 10, positive temperature, speed and pressure,
nonnegative load and flow) every primary field is non-increasing and the
countdown becomes max 0 (shutdownTime - dt). -/
theorem C6_amended (l : Levers) (prev : PrevState) (dt now : ℝ)
    (h1 : 0 < prev.shutdownTime) (h2 : prev.shutdownTime ≤ 10) (h3 : 0 < dt)
    (hT : 0 < prev.mainSteamTemp) (hS : 0 < prev.turbineSpeed)
    (hP : 0 < prev.mainSteamPressure) (hL : 0 ≤ prev.load) (hF : 0 ≤ prev.mainSteamFlow) :
    (calculateSystemState l prev dt now).mainSteamTemp ≤ prev.mainSteamTemp ∧
    (calculateSystemState l prev dt now).turbineSpeed ≤ prev.turbineSpeed ∧
    (calculateSystemState l prev dt now).load ≤ prev.load ∧
    (calculateSystemState l prev dt now).mainSteamFlow ≤ prev.mainSteamFlow ∧
    (calculateSystemState l prev dt now).mainSteamPressure ≤ prev.mainSteamPressure ∧
    (calculateSystemState l prev dt now).shutdownTime =
      some (max 0 (prev.shutdownTime - dt)) := by
  rw [calculateSystemState_shutdown l prev dt now h1]
  have hfac0 : 0 ≤ max 0 ((prev.shutdownTime - dt) / 10) := le_max_left _ _
  have hfac1 : max 0 ((prev.shutdownTime - dt) / 10) ≤ 1 := by
    apply max_le (by norm_num)
    rw [div_le_one (by norm_num : (0:ℝ) < 10)]
    linarith
  refine ⟨?_, ?_, ?_, ?_, ?_, rfl⟩
  · show orD prev.mainSteamTemp STEAM_TEMP_BASE * 0.995 ≤ prev.mainSteamTemp
    rw [orD_of_ne _ (ne_of_gt hT)]
    linarith
  · show orD prev.turbineSpeed 1800 * 0.98 ≤ prev.turbineSpeed
    rw [orD_of_ne _ (ne_of_gt hS)]
    linarith
  · show orD prev.load 0 * max 0 ((prev.shutdownTime - dt) / 10) ≤ prev.load
    rw [orD_zero_right]
    exact mul_le_of_le_one_right hL hfac1
  · show orD prev.mainSteamFlow 0 * max 0 ((prev.shutdownTime - dt) / 10) ≤ prev.mainSteamFlow
    rw [orD_zero_right]
    exact mul_le_of_le_one_right hF hfac1
  · show orD prev.mainSteamPressure STEAM_PRESSURE_BASE *
      max 0 ((prev.shutdownTime - dt) / 10) ≤ prev.mainSteamPressure
    rw [orD_of_ne _ (ne_of_gt hP)]
    exact mul_le_of_le_one_right (le_of_lt hP) hfac1

/-- Witness for C6 at a concrete well-formed shutdown state. -/
theorem C6_amended_witness :
    0 < prevShutdown.shutdownTime ∧ prevShutdown.shutdownTime ≤ 10 ∧ (0:ℝ) < 1 ∧
    (calculateSystemState leversZero prevShutdown 1 0).load ≤ prevShutdown.load ∧
    (calculateSystemState leversZero prevShutdown 1 0).shutdownTime =
      some (max 0 (prevShutdown.shutdownTime - 1)) := by
  have h := C6_amended leversZero prevShutdown 1 0 (by norm_num [prevShutdown])
    (by norm_num [prevShutdown]) one_pos (by norm_num [prevShutdown])
    (by norm_num [prevShutdown]) (by norm_num [prevShutdown])
    (by norm_num [prevShutdown]) (by norm_num [prevShutdown])
  exact ⟨by norm_num [prevShutdown], by norm_num [prevShutdown], one_pos,
    h.2.2.1, h.2.2.2.2.2⟩

/-- C7 counterexample: from a tripped state with expired countdown the
primary values are not held at a floor: the output temperature differs
from the previous one. -/
theorem C7_counterexample :
    prevTripped.trip = true ∧ prevTripped.shutdownTime = 0 ∧
    (calculateSystemState leversZero prevTripped 1 0).mainSteamTemp ≠
      prevTripped.mainSteamTemp := by
  refine ⟨rfl, rfl, ?_⟩
  rw [show prevTripped.mainSteamTemp = (500:ℝ) from rfl]
  exact ne_of_lt step_tripped_mainSteamTemp_bounds.1

/-- C7 as amended: once the countdown has expired the multiplicative
decay branch no longer runs; the tick re-enters the normal smoothing
computation with coal_feed and steam_turbine forced to 0 (values keep
evolving rather than being frozen). -/
theorem C7_amended (l : Levers) (prev : PrevState) (dt now : ℝ)
    (htrip : prev.trip = true) (hs : prev.shutdownTime ≤ 0) :
    calculateSystemState l prev dt now = normalTick (forcedLevers l) true prev dt now ∧
    (calculateSystemState l prev dt now).shutdownTime = none := by
  have h1 := calculateSystemState_normal l prev dt now hs
  rw [tripCondition_of_trip htrip] at h1
  refine ⟨h1.trans rfl, ?_⟩
  rw [h1]
  rfl

/-- Witness for C7 at a concrete expired-countdown state. -/
theorem C7_amended_witness :
    prevTripped.trip = true ∧ prevTripped.shutdownTime ≤ 0 ∧
    calculateSystemState leversZero prevTripped 1 0 =
      normalTick (forcedLevers leversZero) true prevTripped 1 0 :=
  ⟨rfl, le_refl 0, (C7_amended leversZero prevTripped 1 0 rfl (le_refl 0)).1⟩

/-- C8 counterexample: the output frequency is 49.5 (load-based) while
the RPM droop formula evaluates differently at the same output speed. -/
theorem C8_counterexample :
    (calculateSystemState leversZero prevRated 1 0).derived.map DerivedState.frequency ≠
      some (50 + ((calculateSystemState leversZero prevRated 1 0).turbineSpeed - 3000) / 60) := by
  rw [step_rated_frequency, step_rated_turbineSpeed]
  intro hEq
  rw [Option.some.injEq] at hEq
  have hr : SMOOTH_FACTORS.rpm * 1 = (0.03:ℝ) := by norm_num [SMOOTH_FACTORS.rpm]
  rw [hr] at hEq
  have h103 : (1.03:ℝ) ≤ Real.exp 0.03 := by
    have := Real.add_one_le_exp (0.03:ℝ)
    linarith
  have hneg : Real.exp (-(0.03:ℝ)) = (Real.exp 0.03)⁻¹ := Real.exp_neg _
  have hinv : (Real.exp 0.03)⁻¹ ≤ (1.03:ℝ)⁻¹ :=
    inv_anti₀ (by norm_num) h103
  rw [hneg] at hEq
  norm_num at hinv
  linarith

/-- C8 as amended: on every normal tick the output frequency equals
50 + (outputLoad/600 - 1) * 0.5, the load-based formula; the RPM droop
expression is computed inside calculateTurbineResponse but discarded. -/
theorem C8_amended (l : Levers) (prev : PrevState) (dt now : ℝ)
    (hs : prev.shutdownTime ≤ 0) :
    (calculateSystemState l prev dt now).derived.map DerivedState.frequency =
      some (50 + ((calculateSystemState l prev dt now).load / 600 - 1) * 0.5) := by
  rw [calculateSystemState_normal l prev dt now hs, normalTick_frequency]
  rfl

/-- Witness for C8 at the baseline state. -/
theorem C8_amended_witness :
    resetSystemState.shutdownTime ≤ 0 ∧
    (calculateSystemState leversZero resetSystemState 1 0).derived.map
        DerivedState.frequency =
      some (50 + ((calculateSystemState leversZero resetSystemState 1 0).load / 600 - 1) * 0.5) :=
  ⟨le_refl 0, C8_amended leversZero resetSystemState 1 0 (le_refl 0)⟩

/-- C9: the revenue function is the pure formula load times rate times
hours, with rate 1,000,000 per MWh in the primary variant and 10 per MWh
(on nonnegative inputs) in the second variant; both vanish at duration
0. -/
theorem C9_earnings_contract :
    (∀ load dur : ℝ, calculateEarnings load dur = load * 1000000 * (dur / 3600)) ∧
    (∀ load : ℝ, calculateEarnings load 0 = 0) ∧
    (∀ load dur : ℝ, 0 ≤ load → 0 ≤ dur →
      calculateEarningsV2 load dur = load * 10 * (dur / 3600)) ∧
    (∀ load : ℝ, calculateEarningsV2 load 0 = 0) := by
  refine ⟨?_, ?_, ?_, ?_⟩
  · intro load dur
    unfold calculateEarnings
    ring
  · intro load
    unfold calculateEarnings
    ring
  · intro load dur hl hd
    unfold calculateEarningsV2
    rw [max_eq_right (mul_nonneg (mul_nonneg (mul_nonneg hl (by norm_num))
      (div_nonneg hd (by norm_num))) (by norm_num))]
    ring
  · intro load
    unfold calculateEarningsV2
    norm_num

/-- Witness for C9 at a concrete nonnegative load and duration. -/
theorem C9_earnings_contract_witness :
    (0:ℝ) ≤ 2 ∧ (0:ℝ) ≤ 7200 ∧ calculateEarningsV2 2 7200 = 2 * 10 * (7200 / 3600) :=
  ⟨by norm_num, by norm_num,
   C9_earnings_contract.2.2.1 2 7200 (by norm_num) (by norm_num)⟩

/-- C10: from an untripped, non-shutdown state the output trips exactly
when the previous boiler temperature exceeds 620 or the previous turbine
speed exceeds 3600; the hard-coded water level 60 never trips. -/
theorem C10_water_level_trip_unreachable (l : Levers) (prev : PrevState) (dt now : ℝ)
    (htrip : prev.trip = false) (hs : prev.shutdownTime ≤ 0) :
    ((calculateSystemState l prev dt now).trip = true ↔
      (620 < prev.mainSteamTemp ∨ 3600 < prev.turbineSpeed)) := by
  rw [calculateSystemState_normal l prev dt now hs, normalTick_trip]
  exact tripCondition_eq_true_iff htrip

/-- Witness for C10 at a concrete over-temperature state. -/
theorem C10_water_level_trip_unreachable_witness :
    prevHot.trip = false ∧ prevHot.shutdownTime ≤ 0 ∧
    ((calculateSystemState leversA prevHot 1 0).trip = true ↔
      (620 < prevHot.mainSteamTemp ∨ 3600 < prevHot.turbineSpeed)) :=
  ⟨rfl, le_refl 0, C10_water_level_trip_unreachable leversA prevHot 1 0 rfl (le_refl 0)⟩

end
